import Mathlib

/-!
Shallow embedding of the duopow Telegram bot (`src/bot/src/main.rs`).

The bot links a Duolingo account to an Ethereum-style address and reconciles
an off-chain XP counter with an on-chain contract.  The embedding models:

* the `ETH_ADDRESS` regex (`0x[0-9a-fA-F]{40}`) as leftmost first-match
  search over `List Char`;
* the per-conversation dialogue state (`ChatState`) and the `dptree`
  routing of `handler()`;
* each endpoint (`check`, `update`, `register`, `unregister`,
  `begin_link`, `link_receive_username`, `link_receive_address`,
  `link_receive_jwt`, `cancel`, `help`) as a function from an environment
  (the off-chain API and the chain, seen as oracles) to a `StepResult`:
  the dialogue state after the handler runs, the ordered list of I/O
  effects it issued, and whether it returned `Ok`, propagated an error, or
  panicked;
* Rust machine arithmetic where it matters: `u64` subtraction wraps in
  release builds, the `uint`-crate `U256` subtraction and the
  `as_u64`/`as_u128` conversions panic on overflow.

External computations that cannot be reproduced here (the keccak-256-based
EIP-55 checksum test and rendering, and the base64+JSON decoding of a JWT
payload segment) are environment oracles: deterministic function fields of
`Env`, exactly as the network responses are.
-/

namespace Duopow

/-! ## Rust machine arithmetic -/

/-- Wrapping `u64` subtraction (`a - b` in a release build, where overflow
checks are off).  Inputs are `u64` values, i.e. already below `2 ^ 64`. -/
def u64sub (a b : Nat) : Nat :=
  (a % 2 ^ 64 + (2 ^ 64 - b % 2 ^ 64)) % 2 ^ 64

/-- `U256` subtraction from the `uint` crate: panics (here: `none`) on
underflow, in release builds as well. -/
def u256sub (a b : Nat) : Option Nat :=
  if b ≤ a then some (a - b) else none

/-- `U256::as_u64`: panics (here: `none`) when the value does not fit. -/
def u64of (n : Nat) : Option Nat :=
  if n < 2 ^ 64 then some n else none

/-- `U256::as_u128`: panics (here: `none`) when the value does not fit. -/
def u128of (n : Nat) : Option Nat :=
  if n < 2 ^ 128 then some n else none

/-! ## The `ETH_ADDRESS` regex: `0x[0-9a-fA-F]{40}` -/

/-- One character of the class `[0-9a-fA-F]`. -/
def isHexDig (c : Char) : Bool :=
  c.isDigit || ('a' ≤ c && c ≤ 'f') || ('A' ≤ c && c ≤ 'F')

/-- Value of a hex digit (used by `Address`'s `FromStr`). -/
def hexDigitVal (c : Char) : Nat :=
  if c.isDigit then c.toNat - 48
  else if 'a' ≤ c && c ≤ 'f' then c.toNat - 87
  else if 'A' ≤ c && c ≤ 'F' then c.toNat - 55
  else 0

/-- Numeric value of a hex-digit string; this is what
`"0x…".parse::<Address>()` produces on a regex match (the parse always
succeeds on `0x` + 40 hex digits). -/
def hexVal (cs : List Char) : Nat :=
  cs.foldl (fun acc c => acc * 16 + hexDigitVal c) 0

/-- Match of `ETH_ADDRESS` anchored at the start of `s`: `0x` followed by
exactly 40 hex digits.  Returns the matched token and the rest. -/
def matchAt (s : List Char) : Option (List Char × List Char) :=
  match s with
  | c1 :: c2 :: rest =>
    if c1 = '0' ∧ c2 = 'x' ∧ (rest.take 40).length = 40 ∧ (rest.take 40).all isHexDig then
      some (c1 :: c2 :: rest.take 40, rest.drop 40)
    else none
  | _ => none

/-- Leftmost match of `ETH_ADDRESS` in `s` (the semantics of
`Regex::find` / `Regex::is_match` / `Regex::replace` for this pattern):
returns the text before the match, the matched token, and the text after. -/
def findSplit : List Char → Option (List Char × List Char × List Char)
  | [] => none
  | c :: cs =>
    match matchAt (c :: cs) with
    | some (tok, rest) => some ([], tok, rest)
    | none =>
      match findSplit cs with
      | some (p, tok, rest) => some (c :: p, tok, rest)
      | none => none

/-- Number of positions at which an `ETH_ADDRESS` match starts. -/
def countMatches : List Char → Nat
  | [] => 0
  | c :: cs => (if (matchAt (c :: cs)).isSome then 1 else 0) + countMatches cs

/-- Rust's `str::split(sep)` on a character separator: the list of
(possibly empty) segments between occurrences of `sep`. -/
def splitOnChar (sep : Char) : List Char → List (List Char)
  | [] => [[]]
  | c :: rest =>
    if c = sep then [] :: splitOnChar sep rest
    else
      match splitOnChar sep rest with
      | [] => [[c]]
      | g :: gs => (c :: g) :: gs

/-- Join segments back with single spaces (the remainder-of-text argument
of a one-`String`-argument bot command). -/
def joinSpaces : List (List Char) → List Char
  | [] => []
  | [g] => g
  | g :: gs => g ++ ' ' :: joinSpaces gs

/-- A well-formed address token: `0x` + exactly 40 hex digits.  Every
`ethers::utils::to_checksum` output has this shape. -/
def isAddrToken (cs : List Char) : Bool :=
  match cs with
  | c1 :: c2 :: hex => c1 = '0' && c2 = 'x' && hex.length = 40 && hex.all isHexDig
  | _ => false

/-- The bio-rewrite of `add_address_to_profile` (main.rs lines 705-709):
if the bio matches `ETH_ADDRESS`, `Regex::replace` substitutes the first
match with the checksummed address string; otherwise the address string is
appended after a space (`format!("{} {}", original_bio, address_str)`). -/
def new_bio (originalBio addressStr : List Char) : List Char :=
  match findSplit originalBio with
  | some (p, _tok, suf) => p ++ addressStr ++ suf
  | none => originalBio ++ ' ' :: addressStr

/-! ## Data model -/

/-- The slice of Duolingo's `UserResponse` the linking and reconciliation
logic reads: the numeric id and the bio text. -/
structure DuoUser where
  id : Nat
  bio : List Char
deriving DecidableEq

/-- The external world as deterministic oracles.  The first three fields
model the off-chain HTTP API and the contract's `users` view; the last
four model library computations that depend on keccak-256 or on
base64/JSON decoding, which the embedding treats as opaque deterministic
functions:

* `checksumOk s`: whether `ethers::utils::parse_checksummed` accepts the
  (well-formed) address text `s`;
* `decodeJwtPayload seg`: the `sub` field obtained by base64-decoding
  and JSON-parsing the JWT payload segment, `none` when either decode
  fails (which the Rust code `unwrap`s, i.e. panics on);
* `bioByUid uid`: the bio returned by the authenticated
  `get_user_by_uid`;
* `toChecksum a`: the `ethers::utils::to_checksum` rendering of address
  `a`. -/
structure Env where
  userByUsername : String → Option DuoUser
  totalXp : Nat → Nat
  chainUsers : Nat → Nat × Nat
  checksumOk : String → Bool
  decodeJwtPayload : List Char → Option Nat
  bioByUid : Nat → List Char
  toChecksum : Nat → List Char

/-- The per-conversation dialogue state (`ChatState` in main.rs). -/
inductive ChatState
  | Start
  | LinkReceiveUsername
  | LinkReceiveAddress (username : String)
  | LinkReceiveJwt (username : String) (address : Nat)
deriving DecidableEq

/-- The parsed bot commands (`BotCommand` in main.rs). -/
inductive Cmd
  | help
  | link
  | cancel
  | register (username : String)
  | unregister (username : String)
  | update (username : String)
  | check (username : String)
deriving DecidableEq

/-- The distinct outgoing chat messages, with the data interpolated into
their format strings. -/
inductive MsgContent
  | loading
  | userNotFound
  | addressChanged (contractAddr profileAddr : Nat)
  | mintReport (contractAddr delta : Nat)
  | wowXp (x : Nat)
  | minting
  | needMoreXp
  | congrats (amount : Nat)
  | unregistering
  | unregistered
  | checkingRegistration
  | registering (addr : Nat)
  | registered
  | needUpdate
  | updated
  | alreadyRegistered
  | letsSetUp
  | whatUsername
  | greatToMeet
  | needLink
  | alreadyLinkedTo (addr : Nat)
  | whatAddress
  | tryAgainUser
  | sendUsername
  | sendJwtPrompt
  | invalidAddress
  | sendAddress
  | gotIt
  | profileLinked
  | sendJwt
  | cancelling
  | helpText
deriving DecidableEq

/-- One observable I/O action, in program order.  `parUsersXp uid` is the
`tokio::try_join!` of `contract.users(uid)` and `get_user_total_xp(uid)`
in `register`: the two reads issued concurrently and jointly awaited. -/
inductive Effect
  | sendMsg (m : MsgContent)
  | deleteMsg
  | fetchUserByUsername (username : String)
  | fetchTotalXp (uid : Nat)
  | chainUsersRead (uid : Nat)
  | parUsersXp (uid : Nat)
  | reportXp (uid xp : Nat)
  | userRegister (uid addr xp : Nat)
  | userUpdateAddress (uid addr : Nat)
  | userUnregister (uid : Nat)
  | fetchUserByUid (uid : Nat)
  | writeBio (uid : Nat) (bio : List Char)
deriving DecidableEq

/-- How a handler invocation ended: `Ok(())`, an `anyhow` error propagated
with `?` (logged by the dispatcher), or a panic from an `unwrap`/overflow. -/
inductive Outcome
  | ok
  | err
  | panicked
deriving DecidableEq

/-- Result of running one handler on one inbound message: the dialogue
state afterwards (the last `dialogue.update` applied before the handler
finished, errored or panicked), the effects issued, and the outcome. -/
structure StepResult where
  state : ChatState
  effects : List Effect
  outcome : Outcome
deriving DecidableEq

/-! ## Off-chain client helpers -/

/-- `get_user_uid_and_address` (main.rs lines 176-189): username lookup,
then `ETH_ADDRESS.find` on the bio, then `parse` of the matched token.
Any failure collapses into `None`: an unresolved handle, an addressless
bio, and an unparseable token are indistinguishable in the result. -/
def get_user_uid_and_address (env : Env) (username : String) : Option (Nat × Nat) :=
  match env.userByUsername username with
  | none => none
  | some usr =>
    match findSplit usr.bio with
    | none => none
    | some (_, tok, _) => some (usr.id, hexVal (tok.drop 2))

/-- `get_user_uid_and_maybe_address` (main.rs lines 161-174).  Note the
`?` applied to `ETH_ADDRESS.find(&response.bio)`: a resolving user whose
bio holds no address yields `None`, exactly like an unresolved handle;
the inner `Option` is only ever `some` when the whole result is `some`. -/
def get_user_uid_and_maybe_address (env : Env) (username : String) :
    Option (Nat × Option Nat) :=
  match env.userByUsername username with
  | none => none
  | some usr =>
    match findSplit usr.bio with
    | none => none
    | some (_, tok, _) => some (usr.id, some (hexVal (tok.drop 2)))

/-- `ethers::utils::parse_checksummed(text, None)`: the text must be a
well-formed `0x` + 40-hex-digit token and pass the EIP-55 checksum test
(the keccak-based test is the `checksumOk` oracle). -/
def parse_checksummed (env : Env) (s : String) : Option Nat :=
  if isAddrToken s.data && env.checksumOk s then some (hexVal (s.data.drop 2)) else none

/-- `get_uid_from_jwt` (main.rs lines 678-695).  The Rust code `unwrap`s
`token.split('.').nth(1)` and then the base64 and JSON decodes; `none`
here means that invocation panics. -/
def get_uid_from_jwt (env : Env) (token : String) : Option Nat :=
  match (splitOnChar '.' token.data)[1]? with
  | none => none
  | some seg => env.decodeJwtPayload seg

/-- `add_address_to_profile` (main.rs lines 697-730): decode the uid from
the JWT (panic on a malformed token), fetch the authenticated profile,
compute the rewritten bio (`new_bio`) and `PATCH` it back.  Returns the
effects issued, or `none` for the panic inside `get_uid_from_jwt`, which
happens before any I/O. -/
def add_address_to_profile (env : Env) (jwt : String) (address : Nat) :
    Option (List Effect) :=
  match get_uid_from_jwt env jwt with
  | none => none
  | some uid =>
    some [Effect.fetchUserByUid uid,
          Effect.writeBio uid (new_bio (env.bioByUid uid) (env.toChecksum address))]

/-! ## Reconciliation endpoints -/

/-- `check` (main.rs lines 312-356).  On an unresolvable
`get_user_uid_and_address` it reports "User not found" and returns `Ok`.
Otherwise it reads the off-chain XP, then the on-chain record
(sequentially), warns when the two addresses differ, and reports
`total_xp - xp_in_contract.as_u64()` — an unchecked `u64` subtraction
(wrapping in release builds), not a delta floored at zero. -/
def checkRun (env : Env) (username : String) : StepResult :=
  match get_user_uid_and_address env username with
  | none =>
    ⟨ChatState.Start,
     [Effect.sendMsg MsgContent.loading, Effect.fetchUserByUsername username,
      Effect.deleteMsg, Effect.sendMsg MsgContent.userNotFound],
     Outcome.ok⟩
  | some (uid, paddr) =>
    match u64of (env.chainUsers uid).2 with
    | none =>
      ⟨ChatState.Start,
       [Effect.sendMsg MsgContent.loading, Effect.fetchUserByUsername username,
        Effect.fetchTotalXp uid, Effect.chainUsersRead uid],
       Outcome.panicked⟩
    | some r64 =>
      ⟨ChatState.Start,
       [Effect.sendMsg MsgContent.loading, Effect.fetchUserByUsername username,
        Effect.fetchTotalXp uid, Effect.chainUsersRead uid] ++
       (if (env.chainUsers uid).1 = paddr then []
        else [Effect.sendMsg (MsgContent.addressChanged (env.chainUsers uid).1 paddr)]) ++
       [Effect.sendMsg (MsgContent.mintReport (env.chainUsers uid).1
          (u64sub (env.totalXp uid) r64)),
        Effect.deleteMsg],
       Outcome.ok⟩

/-- `update` (main.rs lines 358-411).  Resolution failure propagates as an
error.  The no-op branch fires only on `xp_in_contract == total_xp`
(equality, not `<=`): when the on-chain value is strictly larger, the code
still submits `report_xp(uid, total_xp)` and then panics computing
`U256::from(total_xp) - xp_in_contract` for the "Congratulations"
message. -/
def updateRun (env : Env) (username : String) : StepResult :=
  match get_user_uid_and_address env username with
  | none =>
    ⟨ChatState.Start,
     [Effect.sendMsg MsgContent.loading, Effect.fetchUserByUsername username],
     Outcome.err⟩
  | some (uid, _addr) =>
    match u128of (env.chainUsers uid).2 with
    | none =>
      ⟨ChatState.Start,
       [Effect.sendMsg MsgContent.loading, Effect.fetchUserByUsername username,
        Effect.fetchTotalXp uid, Effect.sendMsg (MsgContent.wowXp (env.totalXp uid)),
        Effect.deleteMsg, Effect.sendMsg MsgContent.minting, Effect.chainUsersRead uid],
       Outcome.panicked⟩
    | some _ =>
      if (env.chainUsers uid).2 = env.totalXp uid then
        ⟨ChatState.Start,
         [Effect.sendMsg MsgContent.loading, Effect.fetchUserByUsername username,
          Effect.fetchTotalXp uid, Effect.sendMsg (MsgContent.wowXp (env.totalXp uid)),
          Effect.deleteMsg, Effect.sendMsg MsgContent.minting, Effect.chainUsersRead uid,
          Effect.sendMsg MsgContent.needMoreXp, Effect.deleteMsg],
         Outcome.ok⟩
      else
        match u256sub (env.totalXp uid) (env.chainUsers uid).2 with
        | none =>
          ⟨ChatState.Start,
           [Effect.sendMsg MsgContent.loading, Effect.fetchUserByUsername username,
            Effect.fetchTotalXp uid, Effect.sendMsg (MsgContent.wowXp (env.totalXp uid)),
            Effect.deleteMsg, Effect.sendMsg MsgContent.minting, Effect.chainUsersRead uid,
            Effect.reportXp uid (env.totalXp uid)],
           Outcome.panicked⟩
        | some m =>
          match u64of m with
          | none =>
            ⟨ChatState.Start,
             [Effect.sendMsg MsgContent.loading, Effect.fetchUserByUsername username,
              Effect.fetchTotalXp uid, Effect.sendMsg (MsgContent.wowXp (env.totalXp uid)),
              Effect.deleteMsg, Effect.sendMsg MsgContent.minting, Effect.chainUsersRead uid,
              Effect.reportXp uid (env.totalXp uid)],
             Outcome.panicked⟩
          | some minted =>
            ⟨ChatState.Start,
             [Effect.sendMsg MsgContent.loading, Effect.fetchUserByUsername username,
              Effect.fetchTotalXp uid, Effect.sendMsg (MsgContent.wowXp (env.totalXp uid)),
              Effect.deleteMsg, Effect.sendMsg MsgContent.minting, Effect.chainUsersRead uid,
              Effect.reportXp uid (env.totalXp uid), Effect.sendMsg (MsgContent.congrats minted),
              Effect.deleteMsg],
             Outcome.ok⟩

/-- `register` (main.rs lines 449-516).  The two reads are issued with
`tokio::try_join!` (the `parUsersXp` effect), then the three-way branch
on the on-chain address: zero sentinel → `user_register`; differing →
`user_update_address`; equal → "Already registered!", no write. -/
def registerRun (env : Env) (username : String) : StepResult :=
  match get_user_uid_and_address env username with
  | none =>
    ⟨ChatState.Start,
     [Effect.sendMsg MsgContent.loading, Effect.fetchUserByUsername username],
     Outcome.err⟩
  | some (uid, addr) =>
    if (env.chainUsers uid).1 = 0 then
      ⟨ChatState.Start,
       [Effect.sendMsg MsgContent.loading, Effect.fetchUserByUsername username,
        Effect.sendMsg MsgContent.checkingRegistration, Effect.deleteMsg,
        Effect.parUsersXp uid, Effect.sendMsg (MsgContent.registering addr),
        Effect.deleteMsg, Effect.userRegister uid addr (env.totalXp uid),
        Effect.sendMsg MsgContent.registered, Effect.deleteMsg],
       Outcome.ok⟩
    else if (env.chainUsers uid).1 ≠ addr then
      ⟨ChatState.Start,
       [Effect.sendMsg MsgContent.loading, Effect.fetchUserByUsername username,
        Effect.sendMsg MsgContent.checkingRegistration, Effect.deleteMsg,
        Effect.parUsersXp uid, Effect.sendMsg MsgContent.needUpdate, Effect.deleteMsg,
        Effect.userUpdateAddress uid addr, Effect.deleteMsg,
        Effect.sendMsg MsgContent.updated],
       Outcome.ok⟩
    else
      ⟨ChatState.Start,
       [Effect.sendMsg MsgContent.loading, Effect.fetchUserByUsername username,
        Effect.sendMsg MsgContent.checkingRegistration, Effect.deleteMsg,
        Effect.parUsersXp uid, Effect.sendMsg MsgContent.alreadyRegistered,
        Effect.deleteMsg],
       Outcome.ok⟩

/-- `unregister` (main.rs lines 413-447). -/
def unregisterRun (env : Env) (username : String) : StepResult :=
  match get_user_uid_and_address env username with
  | none =>
    ⟨ChatState.Start,
     [Effect.sendMsg MsgContent.loading, Effect.fetchUserByUsername username],
     Outcome.err⟩
  | some (uid, _addr) =>
    ⟨ChatState.Start,
     [Effect.sendMsg MsgContent.loading, Effect.fetchUserByUsername username,
      Effect.sendMsg MsgContent.unregistering, Effect.deleteMsg,
      Effect.userUnregister uid, Effect.sendMsg MsgContent.unregistered,
      Effect.deleteMsg],
     Outcome.ok⟩

/-! ## Linking endpoints -/

/-- The informational message of `link_receive_username` when the bio
already holds an address. -/
def addrMsg : Option Nat → List Effect
  | some a => [Effect.sendMsg (MsgContent.alreadyLinkedTo a)]
  | none => []

/-- `link_receive_username` (main.rs lines 533-571). -/
def linkReceiveUsername (env : Env) (text : Option String) : StepResult :=
  match text with
  | none =>
    ⟨ChatState.LinkReceiveUsername, [Effect.sendMsg MsgContent.sendUsername], Outcome.ok⟩
  | some t =>
    match get_user_uid_and_maybe_address env t with
    | some (_uid, maybeAddr) =>
      ⟨ChatState.LinkReceiveAddress t,
       [Effect.fetchUserByUsername t, Effect.sendMsg MsgContent.greatToMeet,
        Effect.sendMsg MsgContent.needLink] ++ addrMsg maybeAddr ++
       [Effect.sendMsg MsgContent.whatAddress],
       Outcome.ok⟩
    | none =>
      ⟨ChatState.LinkReceiveUsername,
       [Effect.fetchUserByUsername t, Effect.sendMsg MsgContent.tryAgainUser],
       Outcome.ok⟩

/-- `link_receive_address` (main.rs lines 573-599). -/
def linkReceiveAddress (env : Env) (username : String) (text : Option String) :
    StepResult :=
  match text with
  | none =>
    ⟨ChatState.LinkReceiveAddress username, [Effect.sendMsg MsgContent.sendAddress],
     Outcome.ok⟩
  | some t =>
    match parse_checksummed env t with
    | some a =>
      ⟨ChatState.LinkReceiveJwt username a, [Effect.sendMsg MsgContent.sendJwtPrompt],
       Outcome.ok⟩
    | none =>
      ⟨ChatState.LinkReceiveAddress username, [Effect.sendMsg MsgContent.invalidAddress],
       Outcome.ok⟩

/-- `link_receive_jwt` (main.rs lines 601-620).  The stored `username` is
ignored (`(_username, address)` in the Rust pattern); a malformed JWT
panics inside `add_address_to_profile` with the dialogue still in
`LinkReceiveJwt`. -/
def linkReceiveJwt (env : Env) (username : String) (address : Nat)
    (text : Option String) : StepResult :=
  match text with
  | none =>
    ⟨ChatState.LinkReceiveJwt username address, [Effect.sendMsg MsgContent.sendJwt],
     Outcome.ok⟩
  | some jwt =>
    match add_address_to_profile env jwt address with
    | none =>
      ⟨ChatState.LinkReceiveJwt username address,
       [Effect.sendMsg MsgContent.gotIt, Effect.deleteMsg], Outcome.panicked⟩
    | some effs =>
      ⟨ChatState.Start,
       [Effect.sendMsg MsgContent.gotIt, Effect.deleteMsg] ++ effs ++
       [Effect.sendMsg MsgContent.profileLinked],
       Outcome.ok⟩

/-! ## Command parsing and dispatch -/

/-- The `BotCommands` parser: a leading `/name` word selects the command,
a single `String` argument takes the rest of the text. -/
def parseCmd (s : String) : Option Cmd :=
  match splitOnChar ' ' s.data with
  | [] => none
  | w :: rest =>
    if w = ("/help").data then some Cmd.help
    else if w = ("/link").data then some Cmd.link
    else if w = ("/cancel").data then some Cmd.cancel
    else if w = ("/register").data then some (Cmd.register (String.mk (joinSpaces rest)))
    else if w = ("/unregister").data then some (Cmd.unregister (String.mk (joinSpaces rest)))
    else if w = ("/update").data then some (Cmd.update (String.mk (joinSpaces rest)))
    else if w = ("/check").data then some (Cmd.check (String.mk (joinSpaces rest)))
    else none

/-- The command endpoints reachable from `ChatState::Start`. -/
def runCmd (env : Env) : Cmd → StepResult
  | Cmd.help => ⟨ChatState.Start, [Effect.sendMsg MsgContent.helpText], Outcome.ok⟩
  | Cmd.cancel => ⟨ChatState.Start, [Effect.sendMsg MsgContent.cancelling], Outcome.ok⟩
  | Cmd.link =>
    ⟨ChatState.LinkReceiveUsername,
     [Effect.sendMsg MsgContent.letsSetUp, Effect.sendMsg MsgContent.whatUsername],
     Outcome.ok⟩
  | Cmd.register u => registerRun env u
  | Cmd.unregister u => unregisterRun env u
  | Cmd.update u => updateRun env u
  | Cmd.check u => checkRun env u

/-- The `dptree` routing of `handler()` (main.rs lines 287-310).  The
whole `filter_command` subtree is nested under `case![ChatState::Start]`,
so a command message is dispatched as a command only when the dialogue is
in `Start`; in every other state the message — commands included — falls
through to that state's endpoint as plain text.  A non-command message in
`Start` matches no branch and is dropped. -/
def dispatch (env : Env) (st : ChatState) (text : Option String) : StepResult :=
  match st with
  | ChatState.Start =>
    match text.bind parseCmd with
    | some c => runCmd env c
    | none => ⟨ChatState.Start, [], Outcome.ok⟩
  | ChatState.LinkReceiveUsername => linkReceiveUsername env text
  | ChatState.LinkReceiveAddress u => linkReceiveAddress env u text
  | ChatState.LinkReceiveJwt u a => linkReceiveJwt env u a text

/-- Run a sequence of inbound messages for one conversation, threading the
dialogue state and concatenating the effects.  A panic or error ends that
handler invocation only; the dispatcher keeps serving later messages with
the dialogue state the failed handler left behind. -/
def runEvents (env : Env) : ChatState → List (Option String) → ChatState × List Effect
  | st, [] => (st, [])
  | st, t :: ts =>
    ((runEvents env (dispatch env st t).state ts).1,
     (dispatch env st t).effects ++ (runEvents env (dispatch env st t).state ts).2)

/-! ## Trace observers -/

/-- Chain-mutating effects (`report_xp`, `user_register`,
`user_update_address`, `user_unregister`). -/
def isChainWrite : Effect → Bool
  | Effect.reportXp _ _ => true
  | Effect.userRegister _ _ _ => true
  | Effect.userUpdateAddress _ _ => true
  | Effect.userUnregister _ => true
  | _ => false

/-- The chain writes of a trace, in order. -/
def chainWrites (tr : List Effect) : List Effect := tr.filter isChainWrite

/-- The authenticated bio writes of a trace, in order. -/
def isProfileWrite : Effect → Bool
  | Effect.writeBio _ _ => true
  | _ => false

/-- The profile (bio) writes of a trace, in order. -/
def profileWrites (tr : List Effect) : List Effect := tr.filter isProfileWrite

/-- Whether a trace contains a concurrent join of the on-chain read and
the off-chain XP read. -/
def isParRead : Effect → Bool
  | Effect.parUsersXp _ => true
  | _ => false

/-- A trace issues the two reads concurrently iff it contains the
`try_join` effect. -/
def concurrentReads (tr : List Effect) : Bool := tr.any isParRead

/-- Scan of a trace: accumulates whether the off-chain XP read
(first flag) and the on-chain registry read (second flag) have been seen,
and demands both before every chain write. -/
def readsBeforeWritesAux : Bool → Bool → List Effect → Bool
  | _, _, [] => true
  | _sx, sc, Effect.fetchTotalXp _ :: es => readsBeforeWritesAux true sc es
  | sx, _sc, Effect.chainUsersRead _ :: es => readsBeforeWritesAux sx true es
  | _sx, _sc, Effect.parUsersXp _ :: es => readsBeforeWritesAux true true es
  | sx, sc, Effect.reportXp _ _ :: es => sx && sc && readsBeforeWritesAux sx sc es
  | sx, sc, Effect.userRegister _ _ _ :: es => sx && sc && readsBeforeWritesAux sx sc es
  | sx, sc, Effect.userUpdateAddress _ _ :: es => sx && sc && readsBeforeWritesAux sx sc es
  | sx, sc, Effect.userUnregister _ :: es => sx && sc && readsBeforeWritesAux sx sc es
  | sx, sc, _ :: es => readsBeforeWritesAux sx sc es

/-- Every chain write in the trace is preceded by both the off-chain XP
read and the on-chain registry read. -/
def readsBeforeWrites (tr : List Effect) : Bool := readsBeforeWritesAux false false tr

/-- The delta carried by the first "you can mint …" report in a trace. -/
def mintDeltaReported (tr : List Effect) : Option Nat :=
  tr.findSome? fun e =>
    match e with
    | Effect.sendMsg (MsgContent.mintReport _ d) => some d
    | _ => none

/-! ## Concrete fixtures -/

/-- 40 hex digits `a`. -/
def hexA : List Char := List.replicate 40 'a'

/-- 40 hex digits `b`. -/
def hexB : List Char := List.replicate 40 'b'

/-- 40 hex digits `c`. -/
def hexC : List Char := List.replicate 40 'c'

/-- The address token `0xaaa…a`. -/
def addrA : List Char := '0' :: 'x' :: hexA

/-- The address token `0xbbb…b`. -/
def addrB : List Char := '0' :: 'x' :: hexB

/-- The address token `0xccc…c`. -/
def addrC : List Char := '0' :: 'x' :: hexC

/-- A bio that embeds two addresses. -/
def bioTwoAddrs : List Char := addrA ++ ' ' :: addrB

/-- An inert environment: no username resolves, no checksum passes, no
JWT payload decodes. -/
def env0 : Env where
  userByUsername := fun _ => none
  totalXp := fun _ => 0
  chainUsers := fun _ => (0, 0)
  checksumOk := fun _ => false
  decodeJwtPayload := fun _ => none
  bioByUid := fun _ => []
  toChecksum := fun _ => []

/-- The reconciliation fixture: `alice` has uid 42, her bio embeds
`0xaaa…a`, her off-chain XP is 300, and the contract records
(`0xaaa…a`, 500) for uid 42 — the on-chain XP exceeds the off-chain
XP by 200. -/
def env1 : Env where
  userByUsername := fun u =>
    if u = "alice" then some ⟨42, ('h' :: 'i' :: ' ' :: addrA)⟩ else none
  totalXp := fun _ => 300
  chainUsers := fun _ => (hexVal hexA, 500)
  checksumOk := fun _ => false
  decodeJwtPayload := fun _ => none
  bioByUid := fun _ => []
  toChecksum := fun _ => []

/-- The linking fixture for an addressless bio: `carol` resolves (uid 7)
but her bio contains no `0x…` token. -/
def env4 : Env where
  userByUsername := fun u =>
    if u = "carol" then some ⟨7, ("language nerd").data⟩ else none
  totalXp := fun _ => 0
  chainUsers := fun _ => (0, 0)
  checksumOk := fun _ => false
  decodeJwtPayload := fun _ => none
  bioByUid := fun _ => []
  toChecksum := fun _ => []

/-- The registration fixture: `dave` (uid 9, bio embeds `0xaaa…a`,
off-chain XP 1000) is unregistered on chain (zero sentinel). -/
def env5 : Env where
  userByUsername := fun u =>
    if u = "dave" then some ⟨9, ('d' :: ' ' :: addrA)⟩ else none
  totalXp := fun _ => 1000
  chainUsers := fun _ => (0, 0)
  checksumOk := fun _ => false
  decodeJwtPayload := fun _ => none
  bioByUid := fun _ => []
  toChecksum := fun _ => []

/-- The error-conflation fixture: `erin` resolves (uid 33) but her bio
`polyglot` embeds no address. -/
def env8 : Env where
  userByUsername := fun u =>
    if u = "erin" then some ⟨33, ("polyglot").data⟩ else none
  totalXp := fun _ => 0
  chainUsers := fun _ => (0, 0)
  checksumOk := fun _ => false
  decodeJwtPayload := fun _ => none
  bioByUid := fun _ => []
  toChecksum := fun _ => []

/-- The linking-flow fixture: `alice` (uid 42, bio embeds `0xaaa…a`) and
`bob` (uid 8, bio embeds `0xbbb…b`) both resolve; every well-formed
address text passes the checksum test; the JWT payload segment `p`
decodes to uid 42, whose authenticated bio is `hello`; checksummed
rendering maps address `a` to `0xccc…c`. -/
def env10 : Env where
  userByUsername := fun u =>
    if u = "alice" then some ⟨42, ('h' :: 'i' :: ' ' :: addrA)⟩
    else if u = "bob" then some ⟨8, ('y' :: 'o' :: ' ' :: addrB)⟩
    else none
  totalXp := fun _ => 300
  chainUsers := fun _ => (0, 0)
  checksumOk := fun _ => true
  decodeJwtPayload := fun seg => if seg = ("p").data then some 42 else none
  bioByUid := fun _ => ("hello").data
  toChecksum := fun _ => addrC

/-- The address text the witness flows type in. -/
def addrCStr : String := String.mk addrC

/-! ## Lemmas about the regex model -/

/-- An anchored match decomposes the input: token then rest. -/
theorem matchAt_sound (s tok rest : List Char) (h : matchAt s = some (tok, rest)) :
    s = tok ++ rest := by
  cases s with
  | nil => simp [matchAt] at h
  | cons c1 s1 =>
    cases s1 with
    | nil => simp [matchAt] at h
    | cons c2 r =>
      have h' : (if c1 = '0' ∧ c2 = 'x' ∧ (r.take 40).length = 40 ∧ (r.take 40).all isHexDig
          then some (c1 :: c2 :: r.take 40, r.drop 40) else none) = some (tok, rest) := h
      split at h'
      · simp only [Option.some.injEq, Prod.mk.injEq] at h'
        obtain ⟨ht, hr⟩ := h'
        subst ht; subst hr
        rw [List.cons_append, List.cons_append, List.take_append_drop]
      · exact Option.noConfusion h'

/-- A leftmost match decomposes the input: text before, token, text
after. -/
theorem findSplit_sound (s : List Char) :
    ∀ p t suf, findSplit s = some (p, t, suf) → s = p ++ t ++ suf := by
  induction s with
  | nil => intro p t suf h; simp [findSplit] at h
  | cons c cs ih =>
    intro p t suf h
    unfold findSplit at h
    cases hm : matchAt (c :: cs) with
    | some pr =>
      obtain ⟨tok, rest⟩ := pr
      simp only [hm, Option.some.injEq, Prod.mk.injEq] at h
      obtain ⟨hp, ht, hs⟩ := h
      subst hp; subst ht; subst hs
      simpa using matchAt_sound _ _ _ hm
    | none =>
      simp only [hm] at h
      cases hf : findSplit cs with
      | none =>
        simp only [hf] at h
        exact Option.noConfusion h
      | some pr =>
        obtain ⟨p1, t1, s1⟩ := pr
        simp only [hf, Option.some.injEq, Prod.mk.injEq] at h
        obtain ⟨hp, ht, hs⟩ := h
        have hcs := ih p1 t1 s1 hf
        rw [← hp, ← ht, ← hs]
        simp [hcs]

/-! ## Claim theorems -/

/-- C1: the claim says `check` reports `off_chain_xp - on_chain_xp`
floored at zero, so with on-chain XP exceeding off-chain XP the reported
delta is zero.  The code computes `total_xp - xp_in_contract.as_u64()`
with an unchecked `u64` subtraction: for `alice` (off-chain 300, on-chain
500, same address on both sides) `check` reports the wrapped delta
`2 ^ 64 - 200`, not zero (and a debug build panics at this subtraction).
No state is mutated — the chain-write part of the claim does hold. -/
theorem c1_check_reports_wrapped_delta_not_zero :
    mintDeltaReported (checkRun env1 "alice").effects = some 18446744073709551416
    ∧ (18446744073709551416 : Nat) ≠ 0
    ∧ env1.totalXp 42 = 300
    ∧ env1.chainUsers 42 = (hexVal hexA, 500)
    ∧ get_user_uid_and_address env1 "alice" = some (42, hexVal hexA)
    ∧ chainWrites (checkRun env1 "alice").effects = []
    ∧ (checkRun env1 "alice").outcome = Outcome.ok := by
  decide

/-- C2: the claim says `update_rewards` issues zero writes whenever
`off_chain_xp <= reported_xp`.  The code's no-op guard tests equality
(`xp_in_contract == total_xp`) rather than `<=`: with off-chain 300 and
on-chain 500 it still submits `report_xp(42, 300)` — a decreasing write —
and then panics computing `U256::from(300) - 500` for the minted-amount
message. -/
theorem c2_update_writes_and_panics_on_smaller_offchain_xp :
    chainWrites (updateRun env1 "alice").effects = [Effect.reportXp 42 300]
    ∧ (updateRun env1 "alice").outcome = Outcome.panicked
    ∧ env1.totalXp 42 = 300
    ∧ (env1.chainUsers 42).2 = 500 := by
  decide

/-- C3: the claim says a cancel command from any non-`Start` state returns
the session to `Start`.  In the code the whole command subtree of
`handler()` is nested under `case![ChatState::Start]`, so mid-flow
`/cancel` is fed to the state's text endpoint instead: in
`LinkReceiveUsername` it is looked up as a username (stays), in
`LinkReceiveAddress` it fails the address parse (stays), and in
`LinkReceiveJwt` it reaches `get_uid_from_jwt`, which panics on a token
with no second dot-segment — the session never returns to `Start`. -/
theorem c3_cancel_mid_flow_does_not_return_to_start :
    parseCmd "/cancel" = some Cmd.cancel
    ∧ (dispatch env0 ChatState.LinkReceiveUsername (some "/cancel")).state
        = ChatState.LinkReceiveUsername
    ∧ (dispatch env0 (ChatState.LinkReceiveAddress "alice") (some "/cancel")).state
        = ChatState.LinkReceiveAddress "alice"
    ∧ (dispatch env0 (ChatState.LinkReceiveJwt "alice" 5) (some "/cancel")).state
        = ChatState.LinkReceiveJwt "alice" 5
    ∧ (dispatch env0 (ChatState.LinkReceiveJwt "alice" 5) (some "/cancel")).outcome
        = Outcome.panicked := by
  decide

/-- C4: the claim says every resolving handle moves `AwaitingHandle` to
`AwaitingAddress` regardless of whether the bio embeds an address.
`get_user_uid_and_maybe_address` applies `?` to `ETH_ADDRESS.find`, so
`carol` — who resolves (uid 7) but whose bio `language nerd` embeds no
address — is reported as "User not found. Please try again." and the
session stays in `LinkReceiveUsername`. -/
theorem c4_resolving_handle_without_address_stays_in_awaiting_handle :
    env4.userByUsername "carol" = some ⟨7, ("language nerd").data⟩
    ∧ (dispatch env4 ChatState.LinkReceiveUsername (some "carol")).state
        = ChatState.LinkReceiveUsername
    ∧ (dispatch env4 ChatState.LinkReceiveUsername (some "carol")).effects
        = [Effect.fetchUserByUsername "carol", Effect.sendMsg MsgContent.tryAgainUser] := by
  decide

/-- C7: the claim says a malformed credential in `AwaitingCredential` is
handled locally — same state, re-prompt, no abnormal termination.  The
code's `get_uid_from_jwt` calls `token.split('.').nth(1).unwrap()`: the
credential `notajwt` (no second dot-segment) panics the handler.  The
dialogue does stay in `LinkReceiveJwt`, but by crash, not by re-prompt. -/
theorem c7_malformed_credential_panics_handler :
    get_uid_from_jwt env0 "notajwt" = none
    ∧ (dispatch env0 (ChatState.LinkReceiveJwt "bob" 9) (some "notajwt")).outcome
        = Outcome.panicked
    ∧ (dispatch env0 (ChatState.LinkReceiveJwt "bob" 9) (some "notajwt")).state
        = ChatState.LinkReceiveJwt "bob" 9 := by
  decide

/-- C5: `register` branches three ways on the on-chain record.  Zero
sentinel: exactly one `user_register(uid, addr, off_chain_xp)` and no
other chain write.  Non-zero and differing from the bio address: exactly
one `user_update_address(uid, addr)` and nothing else.  Equal (the
branches are tested in this order, so here non-zero): no chain write at
all and the outcome message is "Already registered!". -/
theorem c5_register_or_update_three_way_branch
    (env : Env) (u : String) (uid addr : Nat)
    (h : get_user_uid_and_address env u = some (uid, addr)) :
    ((env.chainUsers uid).1 = 0 →
      chainWrites (registerRun env u).effects
        = [Effect.userRegister uid addr (env.totalXp uid)])
    ∧ ((env.chainUsers uid).1 ≠ 0 → (env.chainUsers uid).1 ≠ addr →
      chainWrites (registerRun env u).effects = [Effect.userUpdateAddress uid addr])
    ∧ ((env.chainUsers uid).1 ≠ 0 → (env.chainUsers uid).1 = addr →
      chainWrites (registerRun env u).effects = []
      ∧ Effect.sendMsg MsgContent.alreadyRegistered ∈ (registerRun env u).effects) := by
  refine ⟨?_, ?_, ?_⟩
  · intro h0
    simp [registerRun, h, h0, chainWrites, isChainWrite]
  · intro h0 h1
    simp [registerRun, h, h0, h1, chainWrites, isChainWrite]
  · intro h0 h1
    have h2 : addr ≠ 0 := h1 ▸ h0
    simp [registerRun, h, h1, h2, chainWrites, isChainWrite]

/-- C5 witness: `dave` (uid 9, bio address `0xaaa…a`, off-chain XP 1000)
against a zero on-chain sentinel: exactly the one `user_register` write. -/
theorem c5_register_or_update_three_way_branch_witness :
    chainWrites (registerRun env5 "dave").effects
      = [Effect.userRegister 9 (hexVal hexA) 1000] :=
  (c5_register_or_update_three_way_branch env5 "dave" 9 (hexVal hexA) (by decide)).1
    (by decide)

/-- C6 counterexample: the claim says that whenever the bio contains one
or more embedded addresses, the rewritten bio contains exactly one
embedded address and no leftover occurrence of any old one.
`Regex::replace` substitutes only the first match: the two-address bio
`0xaaa…a 0xbbb…b` rewritten to `0xccc…c` still embeds the old address
`0xbbb…b`, and two match positions remain. -/
theorem c6_two_address_bio_keeps_old_address :
    new_bio bioTwoAddrs addrC = addrC ++ ' ' :: addrB
    ∧ countMatches bioTwoAddrs = 2
    ∧ countMatches (new_bio bioTwoAddrs addrC) = 2
    ∧ List.IsInfix addrB (new_bio bioTwoAddrs addrC)
    ∧ addrB ≠ addrC := by
  decide

/-- C6 amended: if the bio contains an embedded address, the rewrite
replaces exactly the leftmost match with the new address string, leaving
the text before and after it — hence any further embedded address —
unchanged; if it contains none, the rewritten bio is the original with a
space and the new address appended. -/
theorem c6_rewrite_replaces_first_match_or_appends (bio addr : List Char) :
    (∀ p t suf, findSplit bio = some (p, t, suf) →
      new_bio bio addr = p ++ addr ++ suf ∧ bio = p ++ t ++ suf)
    ∧ (findSplit bio = none → new_bio bio addr = bio ++ ' ' :: addr) := by
  constructor
  · intro p t suf h
    exact ⟨by simp [new_bio, h], findSplit_sound bio p t suf h⟩
  · intro h
    simp [new_bio, h]

/-- C6 amended witness: on the two-address bio the leftmost token
`0xaaa…a` is the one replaced. -/
theorem c6_rewrite_replaces_first_match_or_appends_witness :
    new_bio bioTwoAddrs addrC = [] ++ addrC ++ ' ' :: addrB
    ∧ bioTwoAddrs = [] ++ addrA ++ ' ' :: addrB :=
  (c6_rewrite_replaces_first_match_or_appends bioTwoAddrs addrC).1
    [] addrA (' ' :: addrB) (by decide)

/-- C8 counterexample: the claim says `check` fails with distinguishable
`UserNotFound` and `NoAddressLinked` outcomes.  `get_user_uid_and_address`
collapses both causes into `None`, and `check` answers "User not found"
either way: for `erin`, who resolves (uid 33) with the addressless bio
`polyglot`, `check` behaves identically — same messages, same effects,
same outcome — to an environment in which no username resolves at all. -/
theorem c8_unresolved_and_addressless_indistinguishable :
    checkRun env8 "erin" = checkRun env0 "erin"
    ∧ env8.userByUsername "erin" = some ⟨33, ("polyglot").data⟩
    ∧ env0.userByUsername "erin" = none := by
  decide

/-- C8 amended: whenever the handle fails to resolve or the resolved bio
embeds no address (the two cases `get_user_uid_and_address` collapses),
`check` reports the single "User not found" outcome, touches neither the
XP endpoint nor the chain, and returns `Ok`; the two causes are not
distinguishable to the user. -/
theorem c8_check_failure_single_user_not_found_outcome
    (env : Env) (u : String) (h : get_user_uid_and_address env u = none) :
    (checkRun env u).effects
      = [Effect.sendMsg MsgContent.loading, Effect.fetchUserByUsername u,
         Effect.deleteMsg, Effect.sendMsg MsgContent.userNotFound]
    ∧ (checkRun env u).outcome = Outcome.ok := by
  simp [checkRun, h]

/-- C8 amended witness: the addressless `erin` gets exactly the
"User not found" script. -/
theorem c8_check_failure_single_user_not_found_outcome_witness :
    (checkRun env8 "erin").effects
      = [Effect.sendMsg MsgContent.loading, Effect.fetchUserByUsername "erin",
         Effect.deleteMsg, Effect.sendMsg MsgContent.userNotFound]
    ∧ (checkRun env8 "erin").outcome = Outcome.ok :=
  c8_check_failure_single_user_not_found_outcome env8 "erin" (by decide)

/-- C9 counterexample: the claim says all three of `check`,
`register_or_update` and `update_rewards` issue the off-chain XP read and
the on-chain read concurrently.  Only `register` contains the
`tokio::try_join!`; for `alice`, `check` and `update` issue the two reads
as separate sequential awaits — their traces contain `fetchTotalXp` and
`chainUsersRead` as distinct steps and no concurrent join. -/
theorem c9_check_and_update_reads_not_concurrent :
    concurrentReads (checkRun env1 "alice").effects = false
    ∧ concurrentReads (updateRun env1 "alice").effects = false
    ∧ concurrentReads (registerRun env1 "alice").effects = true
    ∧ Effect.fetchTotalXp 42 ∈ (checkRun env1 "alice").effects
    ∧ Effect.chainUsersRead 42 ∈ (checkRun env1 "alice").effects
    ∧ Effect.fetchTotalXp 42 ∈ (updateRun env1 "alice").effects
    ∧ Effect.chainUsersRead 42 ∈ (updateRun env1 "alice").effects := by
  decide

/-- C9 amended: for every resolving handle, `register` issues the two
reads concurrently (`try_join`, joined before its branch), while `check`
and `update_rewards` issue them sequentially — off-chain XP first, then
the on-chain read — with no concurrent join; in all three, both reads
complete before any chain write is issued. -/
theorem c9_only_register_concurrent_reads_all_before_writes
    (env : Env) (u : String) (uid addr : Nat)
    (h : get_user_uid_and_address env u = some (uid, addr)) :
    concurrentReads (registerRun env u).effects = true
    ∧ concurrentReads (checkRun env u).effects = false
    ∧ concurrentReads (updateRun env u).effects = false
    ∧ readsBeforeWrites (registerRun env u).effects = true
    ∧ readsBeforeWrites (checkRun env u).effects = true
    ∧ readsBeforeWrites (updateRun env u).effects = true := by
  refine ⟨?_, ?_, ?_, ?_, ?_, ?_⟩
  all_goals simp only [registerRun, checkRun, updateRun, h]
  all_goals repeat' split
  all_goals simp [concurrentReads, isParRead, readsBeforeWrites, readsBeforeWritesAux]

/-- C9 amended witness: the read discipline at the `alice` fixture. -/
theorem c9_only_register_concurrent_reads_all_before_writes_witness :
    concurrentReads (registerRun env1 "alice").effects = true
    ∧ concurrentReads (checkRun env1 "alice").effects = false
    ∧ concurrentReads (updateRun env1 "alice").effects = false
    ∧ readsBeforeWrites (registerRun env1 "alice").effects = true
    ∧ readsBeforeWrites (checkRun env1 "alice").effects = true
    ∧ readsBeforeWrites (updateRun env1 "alice").effects = true :=
  c9_only_register_concurrent_reads_all_before_writes env1 "alice" 42 (hexVal hexA)
    (by decide)

/-- The informational already-linked message is never a bio write. -/
theorem profileWrites_addrMsg (ma : Option Nat) :
    List.filter isProfileWrite (addrMsg ma) = [] := by
  cases ma <;> simp [addrMsg, isProfileWrite]

/-- Stepping `link_receive_username` on a resolving handle. -/
theorem dispatch_link_username (env : Env) (u : String) (uid : Nat) (ma : Option Nat)
    (h : get_user_uid_and_maybe_address env u = some (uid, ma)) :
    dispatch env ChatState.LinkReceiveUsername (some u)
      = ⟨ChatState.LinkReceiveAddress u,
         [Effect.fetchUserByUsername u, Effect.sendMsg MsgContent.greatToMeet,
          Effect.sendMsg MsgContent.needLink] ++ addrMsg ma ++
         [Effect.sendMsg MsgContent.whatAddress], Outcome.ok⟩ := by
  simp [dispatch, linkReceiveUsername, h]

/-- C10: the handle typed during linking has no influence on the final
bio write.  For any two linking flows `[/link, username, address text,
credential]` that differ only in the username — both resolving — the bio
writes issued are identical: the target account id comes only from the
credential's payload, and the new bio only from that account's current
bio and the address. -/
theorem c10_username_has_no_influence_on_bio_write
    (env : Env) (u1 u2 a j : String) (uid1 uid2 : Nat) (ma1 ma2 : Option Nat)
    (h1 : get_user_uid_and_maybe_address env u1 = some (uid1, ma1))
    (h2 : get_user_uid_and_maybe_address env u2 = some (uid2, ma2)) :
    profileWrites (runEvents env ChatState.Start
        [some "/link", some u1, some a, some j]).2
      = profileWrites (runEvents env ChatState.Start
        [some "/link", some u2, some a, some j]).2 := by
  have d1 : dispatch env ChatState.Start (some "/link")
      = ⟨ChatState.LinkReceiveUsername,
         [Effect.sendMsg MsgContent.letsSetUp, Effect.sendMsg MsgContent.whatUsername],
         Outcome.ok⟩ := rfl
  simp only [runEvents, d1, dispatch_link_username env u1 uid1 ma1 h1,
    dispatch_link_username env u2 uid2 ma2 h2]
  cases hpc : parse_checksummed env a with
  | none =>
    cases hpj : parse_checksummed env j with
    | none =>
      simp [dispatch, linkReceiveAddress, hpc, hpj, profileWrites,
        profileWrites_addrMsg, isProfileWrite]
    | some av =>
      simp [dispatch, linkReceiveAddress, hpc, hpj, profileWrites,
        profileWrites_addrMsg, isProfileWrite]
  | some av =>
    cases hj : add_address_to_profile env j av with
    | none =>
      simp [dispatch, linkReceiveAddress, linkReceiveJwt, hpc, hj, profileWrites,
        profileWrites_addrMsg, isProfileWrite]
    | some effs =>
      simp [dispatch, linkReceiveAddress, linkReceiveJwt, hpc, hj, profileWrites,
        profileWrites_addrMsg, isProfileWrite]

/-- C10 witness: `alice` and `bob` complete the same flow (same address
text, same credential) and the bio write is literally the same. -/
theorem c10_username_has_no_influence_on_bio_write_witness :
    profileWrites (runEvents env10 ChatState.Start
        [some "/link", some "alice", some addrCStr, some "h.p"]).2
      = profileWrites (runEvents env10 ChatState.Start
        [some "/link", some "bob", some addrCStr, some "h.p"]).2 :=
  c10_username_has_no_influence_on_bio_write env10 "alice" "bob" addrCStr "h.p"
    42 8 (some (hexVal hexA)) (some (hexVal hexB)) (by decide) (by decide)

end Duopow
